import Mathlib

/-!
Shallow embedding of `search_api_implementation.py` and
`vector_store_visualizer.py` from the ResponsesAPI repository, together with
theorems settling the specification claims about them.

External API calls are modelled as oracle arguments: an `Except String α`
value stands for the outcome of one remote call (`Except.ok` a normal
response, `Except.error` a raised exception), and `Option (List String)`
stands for the annotation filenames extracted from one Responses-API reply
(`none` when the reply carried no annotations).  Python floats produced by
the metric arithmetic are modelled as rationals.
-/

/- ------------------------------------------------------------------ -/
/- Python string primitives used by the scripts                        -/
/- ------------------------------------------------------------------ -/

/-- Worker for `pyReplace`: left-to-right non-overlapping replacement on the
character list, with fuel bounded by the list length (each step consumes at
least one character when the pattern is non-empty). -/
def pyReplaceAux (pat repl : List Char) : Nat → List Char → List Char
  | _, [] => []
  | 0, s => s
  | fuel + 1, c :: rest =>
    if pat.isPrefixOf (c :: rest) then
      repl ++ pyReplaceAux pat repl fuel (List.drop (pat.length - 1) rest)
    else
      c :: pyReplaceAux pat repl fuel rest

/-- Python `s.replace(pat, repl)` for a non-empty pattern: every
non-overlapping occurrence of `pat` in `s`, scanned left to right, is
replaced by `repl`.  (The scripts only call it as
`filename.replace(".pdf", "")`.) -/
def pyReplace (s pat repl : String) : String :=
  if pat.data.isEmpty then s
  else ⟨pyReplaceAux pat.data repl.data s.data.length s.data⟩

/-- Python `s.lower()` (ASCII case folding suffices for the filenames the
scripts handle). -/
def pyLower (s : String) : String :=
  ⟨s.data.map Char.toLower⟩

/-- Python `s.endswith(suffix)`. -/
def pyEndsWith (s suffix : String) : Bool :=
  List.isSuffixOf suffix.data s.data

/-- Python `os.path.basename` on POSIX paths: the part after the last `/`
(computed by scanning the characters and restarting at each separator). -/
def basename (p : String) : String :=
  ⟨p.data.foldl (fun acc c => if c = '/' then [] else acc ++ [c]) []⟩

/- ------------------------------------------------------------------ -/
/- `evaluate_retrieval` (search_api_implementation.py, lines 156-248)  -/
/- ------------------------------------------------------------------ -/

/-- The metrics dictionary returned by `evaluate_retrieval`: keys
`recall@k`, `precision@k`, `mrr`, `map`. -/
structure RetrievalMetrics where
  recall_at_k : ℚ
  precision_at_k : ℚ
  mrr : ℚ
  map_score : ℚ
deriving Repr, DecidableEq

/-- The `precisions` loop of `process_query`: walks `retrieved_files` with
`enumerate`, keeping the running count `num_relevant` of matches seen so far,
and appends `num_relevant / (i + 1)` at each index `i` holding the expected
filename. -/
def precisionsLoop (expected : String) : List String → Nat → Nat → List ℚ
  | [], _, _ => []
  | fname :: rest, i, num_relevant =>
    if fname = expected then
      (((num_relevant : ℚ) + 1) / ((i : ℚ) + 1)) ::
        precisionsLoop expected rest (i + 1) (num_relevant + 1)
    else
      precisionsLoop expected rest (i + 1) num_relevant

/-- `process_query` after its API call: `annotations` is the list of
annotation filenames from the response (`none` models the
`annotations is None` branch, which returns `(False, 0, 0)`).  The top-`k`
retrieved filenames are `annotations[:k]`; the result triple is
`(correct, reciprocal_rank, average_precision)`. -/
def process_query (k : Nat) (expected : String)
    (annotations : Option (List String)) : Bool × ℚ × ℚ :=
  match annotations with
  | none => (false, 0, 0)
  | some anns =>
    let retrieved_files := anns.take k
    let cr : Bool × ℚ :=
      if expected ∈ retrieved_files then
        (true, 1 / ((retrieved_files.indexOf expected : ℚ) + 1))
      else
        (false, 0)
    let precisions := precisionsLoop expected retrieved_files 0 0
    let avg_precision : ℚ :=
      if precisions = [] then 0 else precisions.sum / (precisions.length : ℚ)
    (cr.1, cr.2, avg_precision)

/-- The expected filename `evaluate_retrieval` computes for a
`questions_dict` key: the row's `_id` is `filename.replace(".pdf", "")` and
`process_query` appends `'.pdf'` back. -/
def expectedFilename (key : String) : String :=
  (pyReplace key ".pdf" "") ++ ".pdf"

/-- `evaluate_retrieval`.  `questions_dict` is the (insertion-ordered)
`filename → query` dictionary; `responses` carries, for each row in order,
the annotation filenames extracted from that row's Responses-API reply.
Returns `none` exactly when `total_queries = 0`, where the Python code's
unguarded divisions raise `ZeroDivisionError`. -/
def evaluate_retrieval (questions_dict : List (String × String))
    (responses : List (Option (List String))) (k : Nat) :
    Option RetrievalMetrics :=
  let rows := questions_dict.map (fun p => (p.2, pyReplace p.1 ".pdf" ""))
  let total_queries := rows.length
  let results :=
    List.zipWith (fun row ann => process_query k (row.2 ++ ".pdf") ann)
      rows responses
  let correct_retrievals_at_k := (results.filter (fun r => r.1)).length
  let reciprocal_ranks := results.map (fun r => r.2.1)
  let average_precisions := results.map (fun r => r.2.2)
  if total_queries = 0 then
    none
  else
    let recall_at_k : ℚ := (correct_retrievals_at_k : ℚ) / (total_queries : ℚ)
    let precision_at_k : ℚ := recall_at_k
    let mrr : ℚ := reciprocal_ranks.sum / (total_queries : ℚ)
    let map_score : ℚ := average_precisions.sum / (total_queries : ℚ)
    some ⟨recall_at_k, precision_at_k, mrr, map_score⟩

example :
    process_query 5 "a.pdf" (some ["a.pdf"]) = (true, 1, 1) := by
  simp +decide [process_query, precisionsLoop]

example :
    process_query 2 "a.pdf" (some ["b.pdf", "c.pdf", "a.pdf"]) =
    (false, 0, 0) := by
  simp +decide [process_query, precisionsLoop]

example :
    evaluate_retrieval [("a.pdf", "qa"), ("b.pdf", "qb")]
      [some ["a.pdf", "b.pdf"], some ["a.pdf", "b.pdf"]] 5 =
    some ⟨1, 1, 3 / 4, 3 / 4⟩ := by
  simp +decide [evaluate_retrieval, process_query, precisionsLoop, pyReplace,
    pyReplaceAux]
  norm_num

example : evaluate_retrieval [] [] 5 = none := rfl

/- ------------------------------------------------------------------ -/
/- PDF upload (search_api_implementation.py, lines 41-76)              -/
/- ------------------------------------------------------------------ -/

/-- The per-file dictionary returned by `upload_single_pdf`: `status` is
`"success"` or `"failed"`, and the `error` key is present (`some`) exactly on
failure. -/
structure UploadResult where
  file : String
  status : String
  error : Option String
deriving Repr, DecidableEq

/-- `upload_single_pdf`: the two API calls (`files.create` and
`vector_stores.files.create`) sit inside a `try`, so any exception is caught
and turned into a `"failed"` record; `uploadOutcome` is the combined outcome
of those calls. -/
def upload_single_pdf (file_path : String) (uploadOutcome : Except String Unit) :
    UploadResult :=
  let file_name := basename file_path
  match uploadOutcome with
  | .ok _ => ⟨file_name, "success", none⟩
  | .error e => ⟨file_name, "failed", some e⟩

/-- The aggregate statistics returned by `upload_pdf_files_to_vector_store`. -/
structure UploadStats where
  total_files : Nat
  successful_uploads : Nat
  failed_uploads : Nat
  errors : List UploadResult
deriving Repr, DecidableEq

/-- One iteration of the result-collection loop of
`upload_pdf_files_to_vector_store`: a completed future's result bumps
`successful_uploads`, or bumps `failed_uploads` and appends the result to
`errors`. -/
def uploadCollectStep (stats : UploadStats) (result : UploadResult) :
    UploadStats :=
  if result.status = "success" then
    { stats with successful_uploads := stats.successful_uploads + 1 }
  else
    { stats with
        failed_uploads := stats.failed_uploads + 1,
        errors := stats.errors ++ [result] }

/-- The `as_completed` collection loop of `upload_pdf_files_to_vector_store`.
(`as_completed` yields the per-file results in some completion order; the
loop's counting is insensitive to that order, and the fold below takes them
in submission order.) -/
def collectUploadResults (total : Nat) (results : List UploadResult) :
    UploadStats :=
  results.foldl uploadCollectStep ⟨total, 0, 0, []⟩

/-- `upload_pdf_files_to_vector_store`: filters the directory listing to
names whose lowercased form ends in `.pdf`, joins them to the directory,
submits one `upload_single_pdf` task per file, and aggregates the results.
`uploadOutcome` gives each file's API outcome. -/
def upload_pdf_files_to_vector_store (dir_pdfs : String)
    (dir_entries : List String) (uploadOutcome : String → Except String Unit) :
    UploadStats :=
  let pdf_files :=
    (dir_entries.filter (fun f => pyEndsWith (pyLower f) ".pdf")).map
      (fun f => dir_pdfs ++ "/" ++ f)
  collectUploadResults pdf_files.length
    (pdf_files.map (fun file_path =>
      upload_single_pdf file_path (uploadOutcome file_path)))

example :
    upload_pdf_files_to_vector_store "d" ["a.pdf", "b.PDF", "notes.txt"]
      (fun p => if p = "d/b.PDF" then .error "boom" else .ok ()) =
    ⟨2, 1, 1, [⟨"b.PDF", "failed", some "boom"⟩]⟩ := by decide

/- ------------------------------------------------------------------ -/
/- Exception handling of the API-calling methods                       -/
/- (search_api_implementation.py, lines 23-154)                        -/
/- ------------------------------------------------------------------ -/

/-- The details dictionary built by `create_vector_store` on success. -/
structure StoreDetails where
  id : String
  name : String
  created_at : Nat
  file_count : Nat
deriving Repr, DecidableEq

/-- `create_vector_store`: the `vector_stores.create` call sits inside a
`try`; on an exception the method prints it and returns the empty dict,
modelled as `none`.  The outer `Except` in the result is the propagation
channel to the caller: this method never uses it. -/
def create_vector_store (api : Except String StoreDetails) :
    Except String (Option StoreDetails) :=
  match api with
  | .ok vs => .ok (some vs)
  | .error _ => .ok none

/-- One search hit: `filename`, `score`, and the chunk texts `content`. -/
structure SearchResult where
  filename : String
  score : ℚ
  content : List String
deriving Repr, DecidableEq

/-- The `vector_stores.search` response object with its `data` attribute. -/
structure SearchResults where
  data : List SearchResult
deriving Repr, DecidableEq

/-- `vector_search`: the `vector_stores.search` call sits inside a `try`; on
an exception the method prints it and returns `None`, modelled as `none`.
The outer `Except` is the propagation channel: never used. -/
def vector_search (api : Except String SearchResults) :
    Except String (Option SearchResults) :=
  match api with
  | .ok r => .ok (some r)
  | .error _ => .ok none

/-- The dict returned by `llm_integrated_search`: either
`files_used`/`response` keys, or a single `error` key. -/
inductive LLMSearchOutcome where
  | result (files_used : List String) (response : String)
  | errorDict (msg : String)
deriving Repr, DecidableEq

/-- `llm_integrated_search`: the `responses.create` call and the annotation
extraction sit inside a `try`; on an exception the method prints it and
returns a dict with an `error` key.  The outer `Except` is the propagation
channel: never used. -/
def llm_integrated_search (api : Except String (List String × String)) :
    Except String LLMSearchOutcome :=
  match api with
  | .ok (files, text) => .ok (.result files text)
  | .error e => .ok (.errorDict e)

/-- `extract_text_from_pdf`: the file read sits inside a `try`; on an
exception the method prints it and returns the text accumulated so far (the
empty string when `open` itself fails).  Pages whose extracted text is falsy
are skipped. -/
def extract_text_from_pdf (pdfRead : Except String (List String)) : String :=
  match pdfRead with
  | .ok pages =>
      pages.foldl (fun text page_text =>
        if page_text ≠ "" then text ++ page_text else text) ""
  | .error _ => ""

/-- `generate_questions`: builds the prompt from the extracted text and calls
`responses.create` with NO `try`/`except` around it, so an exception raised
by the API call propagates to the caller (the `Except.error` case of the
oracle is passed through). -/
def generate_questions (text : String) (api : String → Except String String) :
    Except String String :=
  let prompt :=
    "Can you generate a question that can only be answered from this document?:\n"
      ++ text ++ "\n\n"
  api prompt

/-- The body of `process_query` around its API call: `responses.create` is
called with no `try`/`except`, so an API exception escapes `process_query`
(and `evaluate_retrieval`, which re-raises it when collecting the mapped
results). -/
def process_query_call (k : Nat) (expected : String)
    (api : Except String (Option (List String))) :
    Except String (Bool × ℚ × ℚ) :=
  match api with
  | .error e => .error e
  | .ok annotations => .ok (process_query k expected annotations)

example : generate_questions "doc" (fun _ => .error "boom") = .error "boom" := rfl
example : create_vector_store (.error "boom") = .ok none := rfl

/- ------------------------------------------------------------------ -/
/- The CLI `search` action (search_api_implementation.py, lines 285-296) -/
/- ------------------------------------------------------------------ -/

/-- The body of the CLI `search` action after argument validation: it passes
`vector_search`'s return value straight to the printing loop.  `results.data`
is accessed with NO `None` check, so when `vector_search` returned its
`None` error sentinel the attribute access raises `AttributeError` (the
`Except.error` case); `result.content[0]` likewise raises `IndexError` on an
empty `content` list.  On the happy path it returns the
`(filename, score, content-length)` triples printed for the hits. -/
def main_search_action (results : Option SearchResults) :
    Except String (List (String × ℚ × Nat)) :=
  match results with
  | none => .error "AttributeError"
  | some rs =>
    rs.data.mapM (fun result =>
      match result.content with
      | [] => .error "IndexError"
      | text :: _ => .ok (result.filename, result.score, text.length))

example : main_search_action none = .error "AttributeError" := rfl
example :
    main_search_action (some ⟨[⟨"a.pdf", 9 / 10, ["hello"]⟩]⟩) =
    .ok [("a.pdf", 9 / 10, 5)] := rfl

/- ------------------------------------------------------------------ -/
/- `create_visualization_data` (vector_store_visualizer.py, 146-175)   -/
/- ------------------------------------------------------------------ -/

/-- One pandas cell: the frames built here hold floats, integer cluster
labels, strings, and the `None` placeholder of fresh metadata columns. -/
inductive Cell where
  | num (q : ℚ)
  | int (z : ℤ)
  | str (s : String)
  | null
deriving Repr, DecidableEq

/-- A pandas DataFrame with the default `RangeIndex`, stored column-major:
the column list keeps insertion order and every column holds one cell per
row. -/
structure DataFrame where
  cols : List (String × List Cell)
deriving Repr, DecidableEq

/-- The row count of a frame (the length of its first column; the
constructions below keep all columns the same length). -/
def DataFrame.nrows (df : DataFrame) : Nat :=
  match df.cols with
  | [] => 0
  | c :: _ => c.2.length

/-- `name in df.columns`. -/
def DataFrame.hasCol (df : DataFrame) (name : String) : Bool :=
  df.cols.any (fun c => c.1 = name)

/-- `df[name] = values` with a list right-hand side: pandas raises
`ValueError` (here `none`) unless the list length matches the row count;
otherwise it replaces the column if present and appends it at the end if
not. -/
def DataFrame.setColumn (df : DataFrame) (name : String) (vals : List Cell) :
    Option DataFrame :=
  if vals.length = df.nrows then
    if df.hasCol name then
      some ⟨df.cols.map (fun c => if c.1 = name then (c.1, vals) else c)⟩
    else
      some ⟨df.cols ++ [(name, vals)]⟩
  else
    none

/-- `df[name] = scalar`: the scalar is broadcast to every row. -/
def DataFrame.setColumnScalar (df : DataFrame) (name : String) (v : Cell) :
    DataFrame :=
  if df.hasCol name then
    ⟨df.cols.map (fun c =>
      if c.1 = name then (c.1, List.replicate c.2.length v) else c)⟩
  else
    ⟨df.cols ++ [(name, List.replicate df.nrows v)]⟩

/-- `df.at[i, name] = v`: writes one cell.  The frames built here use the
default `RangeIndex` and are only written at row labels `i < nrows`, where
`.at` assigns in place. -/
def DataFrame.setAt (df : DataFrame) (i : Nat) (name : String) (v : Cell) :
    DataFrame :=
  ⟨df.cols.map (fun c => if c.1 = name then (c.1, c.2.set i v) else c)⟩

/-- The column of a frame with a given name, scanned in order. -/
def findColumn (name : String) : List (String × List Cell) → Option (List Cell)
  | [] => none
  | c :: rest => if c.1 = name then some c.2 else findColumn name rest

/-- Reads cell `(i, name)` of a frame. -/
def DataFrame.getCell (df : DataFrame) (name : String) (i : Nat) :
    Option Cell :=
  (findColumn name df.cols).bind (fun col => col.get? i)

/-- One element of the `embeddings_data` list built by `fetch_embeddings`. -/
structure EmbeddingEntry where
  id : String
  filename : String
  embedding : List ℚ
  metadata : List (String × Cell)
  text : String
deriving Repr, DecidableEq

/-- The body of the metadata loop of `create_visualization_data` for one
`(key, value)` pair of document `i`: a missing column `key` is first created
filled with `None`, then cell `(i, key)` is set to `value`. -/
def metadataWriteCell (i : Nat) (df : DataFrame) (kv : String × Cell) :
    DataFrame :=
  let df := if df.hasCol kv.1 then df else df.setColumnScalar kv.1 .null
  df.setAt i kv.1 kv.2

/-- The metadata loop of `create_visualization_data`: for each document `i`
and each `(key, value)` of its metadata dict in order, write cell
`(i, key)`. -/
def addMetadataColumns (df : DataFrame)
    (embeddings_data : List EmbeddingEntry) : DataFrame :=
  embeddings_data.enum.foldl
    (fun df p => p.2.metadata.foldl (metadataWriteCell p.1) df)
    df

/-- The text preview of one document:
`data.get('text', '')[:100] + '...' if data.get('text', '') else ''`. -/
def textPreview (text : String) : String :=
  if text ≠ "" then (⟨text.data.take 100⟩ : String) ++ "..." else ""

/-- `create_visualization_data`: builds the frame with columns `x`, `y`, `z`
from `reduced_embeddings`, adds `id` and `filename`, runs the metadata loop,
then adds `cluster` and `text_preview`.  The body sits inside a `try`; the
`ValueError` a mismatched column assignment raises is caught and the method
returns `None`. -/
def create_visualization_data (embeddings_data : List EmbeddingEntry)
    (reduced_embeddings : List (ℚ × ℚ × ℚ)) (cluster_labels : List ℤ) :
    Option DataFrame :=
  let df : DataFrame :=
    ⟨[("x", reduced_embeddings.map (fun r => Cell.num r.1)),
      ("y", reduced_embeddings.map (fun r => Cell.num r.2.1)),
      ("z", reduced_embeddings.map (fun r => Cell.num r.2.2))]⟩
  (df.setColumn "id" (embeddings_data.map (fun d => Cell.str d.id))).bind
    fun df =>
  (df.setColumn "filename"
      (embeddings_data.map (fun d => Cell.str d.filename))).bind fun df =>
  let df := addMetadataColumns df embeddings_data
  (df.setColumn "cluster" (cluster_labels.map Cell.int)).bind fun df =>
  df.setColumn "text_preview"
    (embeddings_data.map (fun d => Cell.str (textPreview d.text)))

example :
    (create_visualization_data
        [⟨"id0", "a.pdf", [1, 2], [("source", .str "s")], "hello"⟩]
        [(1, 2, 3)] [0]).map (fun df => df.cols.map (fun c => c.1)) =
    some ["x", "y", "z", "id", "filename", "source", "cluster",
      "text_preview"] := by decide

example :
    (create_visualization_data [⟨"id0", "a.pdf", [1, 2], [], "hi"⟩] [] [])
    = none := by decide

/- ------------------------------------------------------------------ -/
/- Theorems for the claims                                             -/
/- ------------------------------------------------------------------ -/

/-- `process_query` marks the query correct when the expected filename is
among the top-`k` retrieved filenames. -/
theorem process_query_correct_of_mem (k : Nat) (expected : String)
    (anns : List String) (h : expected ∈ anns.take k) :
    (process_query k expected (some anns)).1 = true := by
  simp only [process_query]
  rw [if_pos h]

/-- The zipWith of `evaluate_retrieval` written directly over the
`questions_dict`, with `expectedFilename` applied to each key. -/
theorem evaluate_results_eq (questions_dict : List (String × String))
    (responses : List (Option (List String))) (k : Nat) :
    List.zipWith (fun row ann => process_query k (row.2 ++ ".pdf") ann)
        (questions_dict.map (fun p => (p.2, pyReplace p.1 ".pdf" "")))
        responses =
      List.zipWith (fun p ann => process_query k (expectedFilename p.1) ann)
        questions_dict responses := by
  rw [List.zipWith_map_left]
  rfl

/-- C1: when `questions_dict` is non-empty and, for every query, the
expected filename (the key with `.pdf` stripped and restored) appears among
the top-`k` filenames extracted from that query's annotations, the
`recall@k` metric returned by `evaluate_retrieval` is `1.0`. -/
theorem C1_recall_one_when_all_hits (questions_dict : List (String × String))
    (responses : List (Option (List String))) (k : Nat)
    (hne : questions_dict ≠ [])
    (hlen : responses.length = questions_dict.length)
    (hall : ∀ i, i < questions_dict.length →
      ∃ anns, responses.getD i none = some anns ∧
        expectedFilename (questions_dict.getD i ("", "")).1 ∈ anns.take k) :
    ∃ m, evaluate_retrieval questions_dict responses k = some m ∧
      m.recall_at_k = 1 := by
  have hlen0 : questions_dict.length ≠ 0 := by
    intro h
    exact hne (List.length_eq_zero.mp h)
  unfold evaluate_retrieval
  dsimp only
  rw [List.length_map, if_neg hlen0, evaluate_results_eq]
  have hresults_len :
      (List.zipWith (fun p ann => process_query k (expectedFilename p.1) ann)
          questions_dict responses).length = questions_dict.length := by
    rw [List.length_zipWith, hlen, min_self]
  have hall' :
      ∀ r ∈ List.zipWith
          (fun p ann => process_query k (expectedFilename p.1) ann)
          questions_dict responses, r.1 = true := by
    intro r hr
    obtain ⟨i, hi, hget⟩ := List.mem_iff_getElem.mp hr
    rw [hresults_len] at hi
    have hi₂ : i < responses.length := by omega
    obtain ⟨anns, hanns, hmem⟩ := hall i hi
    rw [List.getD_eq_getElem responses none hi₂] at hanns
    rw [List.getD_eq_getElem questions_dict ("", "") hi] at hmem
    rw [List.getElem_zipWith] at hget
    rw [← hget]
    simp only [hanns]
    exact process_query_correct_of_mem k _ anns hmem
  have hfilter :
      (List.zipWith (fun p ann => process_query k (expectedFilename p.1) ann)
            questions_dict responses).filter (fun r => r.1) =
        List.zipWith (fun p ann => process_query k (expectedFilename p.1) ann)
          questions_dict responses :=
    List.filter_eq_self.mpr (by simpa using hall')
  refine ⟨_, rfl, ?_⟩
  dsimp only
  rw [hfilter, hresults_len]
  exact div_self (Nat.cast_ne_zero.mpr hlen0)

/-- Closed instantiation of `C1_recall_one_when_all_hits` at a two-query
input whose expected files are both retrieved in the top-`k`. -/
theorem C1_recall_one_when_all_hits_witness :
    ∃ m, evaluate_retrieval [("doc1.pdf", "q1"), ("doc2.pdf", "q2")]
        [some ["doc1.pdf", "other.pdf"], some ["x.pdf", "doc2.pdf"]] 5 =
      some m ∧ m.recall_at_k = 1 :=
  C1_recall_one_when_all_hits _ _ 5 (by decide) (by decide)
    (by intro i hi
        have hi₂ : i < 2 := by simpa using hi
        interval_cases i
        · exact ⟨["doc1.pdf", "other.pdf"], rfl, by decide⟩
        · exact ⟨["x.pdf", "doc2.pdf"], rfl, by decide⟩)

/-- Positions before `indexOf` never hold the element: `list.index` in
Python returns the first occurrence. -/
theorem get?_ne_of_lt_indexOf (a : String) (l : List String) :
    ∀ j, j < l.indexOf a → l.get? j ≠ some a := by
  induction l with
  | nil =>
    intro j hj
    simp [List.indexOf_nil] at hj
  | cons b t ih =>
    intro j hj
    by_cases hba : b = a
    · rw [List.indexOf_cons_eq t hba] at hj
      omega
    · rw [List.indexOf_cons_ne t hba] at hj
      cases j with
      | zero =>
        simpa using hba
      | succ j =>
        simpa using ih j (by omega)

/-- The reciprocal rank `process_query` computes for a hit:
`1 / (index of first occurrence + 1)`. -/
theorem process_query_rr_of_mem (k : Nat) (expected : String)
    (anns : List String) (h : expected ∈ anns.take k) :
    (process_query k expected (some anns)).2.1 =
      1 / (((anns.take k).indexOf expected : ℚ) + 1) := by
  simp only [process_query]
  rw [if_pos h]

/-- The reciprocal rank `process_query` computes for a miss: `0`. -/
theorem process_query_rr_of_not_mem (k : Nat) (expected : String)
    (anns : List String) (h : expected ∉ anns.take k) :
    (process_query k expected (some anns)).2.1 = 0 := by
  simp only [process_query]
  rw [if_neg h]

/-- C2: per query, the reciprocal rank is `1/rank` where `rank` is the
1-based position of the first occurrence of the expected filename in the
top-`k` retrieved list, and `0` when the expected filename is absent; the
returned `mrr` is the sum of the per-query reciprocal ranks divided by the
number of queries. -/
theorem C2_mrr_is_mean_reciprocal_rank
    (questions_dict : List (String × String))
    (responses : List (Option (List String))) (k : Nat)
    (hne : questions_dict ≠ []) :
    (∃ m, evaluate_retrieval questions_dict responses k = some m ∧
      m.mrr =
        (List.zipWith
            (fun p ann => (process_query k (expectedFilename p.1) ann).2.1)
            questions_dict responses).sum /
          (questions_dict.length : ℚ)) ∧
    (∀ expected : String, ∀ anns : List String,
      (expected ∈ anns.take k →
        ∃ rank : Nat, 1 ≤ rank ∧
          (anns.take k).get? (rank - 1) = some expected ∧
          (∀ j, j < rank - 1 → (anns.take k).get? j ≠ some expected) ∧
          (process_query k expected (some anns)).2.1 = 1 / (rank : ℚ)) ∧
      (expected ∉ anns.take k →
        (process_query k expected (some anns)).2.1 = 0)) := by
  constructor
  · have hlen0 : questions_dict.length ≠ 0 := by
      intro h
      exact hne (List.length_eq_zero.mp h)
    unfold evaluate_retrieval
    dsimp only
    rw [List.length_map, if_neg hlen0, evaluate_results_eq]
    refine ⟨_, rfl, ?_⟩
    dsimp only
    rw [List.map_zipWith]
  · intro expected anns
    constructor
    · intro h
      refine ⟨(anns.take k).indexOf expected + 1, by omega, ?_, ?_, ?_⟩
      · simpa using List.indexOf_get? h
      · intro j hj
        exact get?_ne_of_lt_indexOf expected (anns.take k) j (by omega)
      · rw [process_query_rr_of_mem k expected anns h]
        push_cast
        ring
    · exact process_query_rr_of_not_mem k expected anns

/-- Closed instantiation of `C2_mrr_is_mean_reciprocal_rank` at a two-query
input: first expected file at rank 2, second absent. -/
theorem C2_mrr_is_mean_reciprocal_rank_witness :
    (∃ m, evaluate_retrieval [("a.pdf", "qa"), ("b.pdf", "qb")]
        [some ["x.pdf", "a.pdf"], some ["x.pdf", "y.pdf"]] 5 = some m ∧
      m.mrr =
        (List.zipWith
            (fun p ann => (process_query 5 (expectedFilename p.1) ann).2.1)
            [("a.pdf", "qa"), ("b.pdf", "qb")]
            [some ["x.pdf", "a.pdf"], some ["x.pdf", "y.pdf"]]).sum /
          (([("a.pdf", "qa"), ("b.pdf", "qb")] :
            List (String × String)).length : ℚ)) ∧
    (∀ expected : String, ∀ anns : List String,
      (expected ∈ anns.take 5 →
        ∃ rank : Nat, 1 ≤ rank ∧
          (anns.take 5).get? (rank - 1) = some expected ∧
          (∀ j, j < rank - 1 → (anns.take 5).get? j ≠ some expected) ∧
          (process_query 5 expected (some anns)).2.1 = 1 / (rank : ℚ)) ∧
      (expected ∉ anns.take 5 →
        (process_query 5 expected (some anns)).2.1 = 0)) :=
  C2_mrr_is_mean_reciprocal_rank _ _ 5 (by decide)

/-- A list of rationals bounded by `1` sums to at most its length. -/
theorem list_sum_le_length (l : List ℚ) (h : ∀ x ∈ l, x ≤ 1) :
    l.sum ≤ (l.length : ℚ) := by
  induction l with
  | nil => simp
  | cons x t ih =>
    simp only [List.sum_cons, List.length_cons]
    push_cast
    have hx := h x (by simp)
    have ht := ih (fun y hy => h y (by simp [hy]))
    linarith

/-- Every element of a `zipWith` is an application of the zipped function. -/
theorem zipWith_mem_exists {α β γ : Type} (f : α → β → γ) (l₁ : List α)
    (l₂ : List β) : ∀ x ∈ List.zipWith f l₁ l₂, ∃ a b, x = f a b := by
  induction l₁ generalizing l₂ with
  | nil =>
    intro x hx
    simp at hx
  | cons a t ih =>
    intro x hx
    cases l₂ with
    | nil => simp at hx
    | cons b t₂ =>
      rcases List.mem_cons.mp hx with rfl | hx₂
      · exact ⟨a, b, rfl⟩
      · exact ih t₂ x hx₂

/-- Every entry of the `precisions` list lies in `[0, 1]`: the running
`num_relevant` count never exceeds the 1-based position. -/
theorem precisionsLoop_mem_bounds (expected : String) (l : List String) :
    ∀ i num_relevant : Nat, num_relevant ≤ i →
      ∀ q ∈ precisionsLoop expected l i num_relevant, 0 ≤ q ∧ q ≤ 1 := by
  induction l with
  | nil =>
    intro i nr _ q hq
    simp [precisionsLoop] at hq
  | cons f t ih =>
    intro i nr hnr q hq
    simp only [precisionsLoop] at hq
    by_cases hf : f = expected
    · rw [if_pos hf] at hq
      rcases List.mem_cons.mp hq with rfl | hq₂
      · refine ⟨by positivity, ?_⟩
        rw [div_le_one (by positivity)]
        have hcast : (nr : ℚ) ≤ (i : ℚ) := by exact_mod_cast hnr
        linarith
      · exact ih (i + 1) (nr + 1) (by omega) q hq₂
    · rw [if_neg hf] at hq
      exact ih (i + 1) nr (by omega) q hq

/-- The reciprocal rank of every query lies in `[0, 1]`. -/
theorem process_query_rr_bounds (k : Nat) (expected : String)
    (ann : Option (List String)) :
    0 ≤ (process_query k expected ann).2.1 ∧
      (process_query k expected ann).2.1 ≤ 1 := by
  cases ann with
  | none => simp [process_query]
  | some anns =>
    by_cases h : expected ∈ anns.take k
    · rw [process_query_rr_of_mem k expected anns h]
      have h0 : (0 : ℚ) ≤ ((anns.take k).indexOf expected : ℚ) := by
        positivity
      constructor
      · positivity
      · rw [div_le_one (by linarith)]
        linarith
    · rw [process_query_rr_of_not_mem k expected anns h]
      norm_num

/-- The average precision of every query lies in `[0, 1]`. -/
theorem process_query_ap_bounds (k : Nat) (expected : String)
    (ann : Option (List String)) :
    0 ≤ (process_query k expected ann).2.2 ∧
      (process_query k expected ann).2.2 ≤ 1 := by
  cases ann with
  | none => simp [process_query]
  | some anns =>
    have hap : (process_query k expected (some anns)).2.2 =
        (if precisionsLoop expected (anns.take k) 0 0 = [] then 0
         else (precisionsLoop expected (anns.take k) 0 0).sum /
           ((precisionsLoop expected (anns.take k) 0 0).length : ℚ)) := by
      simp only [process_query]
    rw [hap]
    by_cases hempty : precisionsLoop expected (anns.take k) 0 0 = []
    · rw [if_pos hempty]
      norm_num
    · rw [if_neg hempty]
      have hbounds :=
        precisionsLoop_mem_bounds expected (anns.take k) 0 0 (le_refl 0)
      have hlpos :
          (0 : ℚ) < ((precisionsLoop expected (anns.take k) 0 0).length : ℚ) := by
        have : (precisionsLoop expected (anns.take k) 0 0).length ≠ 0 :=
          fun h => hempty (List.length_eq_zero.mp h)
        exact_mod_cast Nat.pos_of_ne_zero this
      constructor
      · exact div_nonneg
          (List.sum_nonneg (fun x hx => (hbounds x hx).1)) (le_of_lt hlpos)
      · rw [div_le_one hlpos]
        exact list_sum_le_length _ (fun x hx => (hbounds x hx).2)

/-- C10: on a non-empty `questions_dict`, all four metrics returned by
`evaluate_retrieval` (`recall@k`, `precision@k`, `mrr`, `map`) lie in the
closed interval `[0, 1]`. -/
theorem C10_metrics_in_unit_interval (questions_dict : List (String × String))
    (responses : List (Option (List String))) (k : Nat)
    (hne : questions_dict ≠ []) :
    ∃ m, evaluate_retrieval questions_dict responses k = some m ∧
      0 ≤ m.recall_at_k ∧ m.recall_at_k ≤ 1 ∧
      0 ≤ m.precision_at_k ∧ m.precision_at_k ≤ 1 ∧
      0 ≤ m.mrr ∧ m.mrr ≤ 1 ∧
      0 ≤ m.map_score ∧ m.map_score ≤ 1 := by
  have hlen0 : questions_dict.length ≠ 0 := by
    intro h
    exact hne (List.length_eq_zero.mp h)
  have hnpos : (0 : ℚ) < (questions_dict.length : ℚ) := by
    exact_mod_cast Nat.pos_of_ne_zero hlen0
  unfold evaluate_retrieval
  dsimp only
  rw [List.length_map, if_neg hlen0, evaluate_results_eq]
  have hRlen :
      (List.zipWith (fun p ann => process_query k (expectedFilename p.1) ann)
          questions_dict responses).length ≤ questions_dict.length := by
    rw [List.length_zipWith]
    omega
  refine ⟨_, rfl, ?_, ?_, ?_, ?_, ?_, ?_, ?_, ?_⟩
  · positivity
  · rw [div_le_one hnpos]
    have hfle := List.length_filter_le (fun r : Bool × ℚ × ℚ => r.1)
      (List.zipWith (fun p ann => process_query k (expectedFilename p.1) ann)
        questions_dict responses)
    exact_mod_cast le_trans hfle hRlen
  · positivity
  · rw [div_le_one hnpos]
    have hfle := List.length_filter_le (fun r : Bool × ℚ × ℚ => r.1)
      (List.zipWith (fun p ann => process_query k (expectedFilename p.1) ann)
        questions_dict responses)
    exact_mod_cast le_trans hfle hRlen
  · apply div_nonneg _ (le_of_lt hnpos)
    apply List.sum_nonneg
    intro x hx
    obtain ⟨r, hr, rfl⟩ := List.mem_map.mp hx
    obtain ⟨a, b, rfl⟩ := zipWith_mem_exists _ _ _ r hr
    exact (process_query_rr_bounds k (expectedFilename a.1) b).1
  · rw [div_le_one hnpos]
    have hsum := list_sum_le_length
      ((List.zipWith (fun p ann => process_query k (expectedFilename p.1) ann)
          questions_dict responses).map (fun r => r.2.1))
      (by
        intro x hx
        obtain ⟨r, hr, rfl⟩ := List.mem_map.mp hx
        obtain ⟨a, b, rfl⟩ := zipWith_mem_exists _ _ _ r hr
        exact (process_query_rr_bounds k (expectedFilename a.1) b).2)
    rw [List.length_map] at hsum
    have : ((List.zipWith
        (fun p ann => process_query k (expectedFilename p.1) ann)
        questions_dict responses).length : ℚ) ≤
        (questions_dict.length : ℚ) := by exact_mod_cast hRlen
    linarith
  · apply div_nonneg _ (le_of_lt hnpos)
    apply List.sum_nonneg
    intro x hx
    obtain ⟨r, hr, rfl⟩ := List.mem_map.mp hx
    obtain ⟨a, b, rfl⟩ := zipWith_mem_exists _ _ _ r hr
    exact (process_query_ap_bounds k (expectedFilename a.1) b).1
  · rw [div_le_one hnpos]
    have hsum := list_sum_le_length
      ((List.zipWith (fun p ann => process_query k (expectedFilename p.1) ann)
          questions_dict responses).map (fun r => r.2.2))
      (by
        intro x hx
        obtain ⟨r, hr, rfl⟩ := List.mem_map.mp hx
        obtain ⟨a, b, rfl⟩ := zipWith_mem_exists _ _ _ r hr
        exact (process_query_ap_bounds k (expectedFilename a.1) b).2)
    rw [List.length_map] at hsum
    have : ((List.zipWith
        (fun p ann => process_query k (expectedFilename p.1) ann)
        questions_dict responses).length : ℚ) ≤
        (questions_dict.length : ℚ) := by exact_mod_cast hRlen
    linarith

/-- Closed instantiation of `C10_metrics_in_unit_interval`: one hit at rank
2, one miss. -/
theorem C10_metrics_in_unit_interval_witness :
    ∃ m, evaluate_retrieval [("a.pdf", "qa"), ("b.pdf", "qb")]
        [some ["x.pdf", "a.pdf"], some ["x.pdf", "y.pdf"]] 5 = some m ∧
      0 ≤ m.recall_at_k ∧ m.recall_at_k ≤ 1 ∧
      0 ≤ m.precision_at_k ∧ m.precision_at_k ≤ 1 ∧
      0 ≤ m.mrr ∧ m.mrr ≤ 1 ∧
      0 ≤ m.map_score ∧ m.map_score ≤ 1 :=
  C10_metrics_in_unit_interval _ _ 5 (by decide)

/-- C9: `evaluate_retrieval` requires a non-empty `questions_dict`: on an
empty one, `total_queries = 0` and the unguarded divisions computing
`recall@k`, `mrr` and `map` raise `ZeroDivisionError` (the `none` result of
the embedding) instead of producing a metrics dictionary. -/
theorem C9_empty_questions_dict_divides_by_zero
    (responses : List (Option (List String))) (k : Nat) :
    evaluate_retrieval [] responses k = none := rfl

/-- C8: whenever `evaluate_retrieval` returns a metrics dictionary, the
`precision@k` entry is exactly the `recall@k` entry, for every
`questions_dict`, `responses` and `k` (the code sets
`precision_at_k = recall_at_k`). -/
theorem C8_precision_always_equals_recall
    (questions_dict : List (String × String))
    (responses : List (Option (List String))) (k : Nat)
    (m : RetrievalMetrics)
    (h : evaluate_retrieval questions_dict responses k = some m) :
    m.precision_at_k = m.recall_at_k := by
  by_cases hq : questions_dict.length = 0
  · simp [evaluate_retrieval, hq] at h
  · simp only [evaluate_retrieval, hq, List.length_map, if_false,
      Option.some.injEq] at h
    subst h
    rfl

/-- Closed instantiation of `C8_precision_always_equals_recall` at a
one-query input. -/
theorem C8_precision_always_equals_recall_witness :
    (RetrievalMetrics.mk 1 1 1 1).precision_at_k =
    (RetrievalMetrics.mk 1 1 1 1).recall_at_k :=
  C8_precision_always_equals_recall [("a.pdf", "q")] [some ["a.pdf"]] 5 _
    (by simp +decide [evaluate_retrieval, process_query, precisionsLoop,
          pyReplace, pyReplaceAux])

/-- C4 counterexample: the claim says every method performing an external API
call catches any exception and returns a sentinel instead of propagating.
`generate_questions` performs its `responses.create` call with no
`try`/`except`: with an API oracle that raises, the exception comes straight
back to the caller (`Except.error`, not a sentinel value), so the claim as
stated is false. -/
theorem C4_counterexample :
    generate_questions "some document text"
      (fun _ => Except.error "APIConnectionError") =
    Except.error "APIConnectionError" ∧
    ∀ q : String,
      generate_questions "some document text"
          (fun _ => Except.error "APIConnectionError") ≠
        Except.ok q :=
  ⟨rfl, fun _ h => Except.noConfusion h⟩

/-- C4 amended: `create_vector_store`, `upload_single_pdf`, `vector_search`,
`llm_integrated_search` and `extract_text_from_pdf` wrap their external calls
and, on any exception, print it and return their empty/failure sentinel
(empty dict, failure record, `None`, error-key dict, accumulated text);
`generate_questions` and the per-query `responses.create` call inside
`evaluate_retrieval`'s `process_query` are not wrapped, so their exceptions
propagate to the caller. -/
theorem C4_amended_error_sentinels (e file_path text : String) (k : Nat)
    (expected : String) :
    create_vector_store (Except.error e) = Except.ok none ∧
    upload_single_pdf file_path (Except.error e) =
      ⟨basename file_path, "failed", some e⟩ ∧
    vector_search (Except.error e) = Except.ok none ∧
    llm_integrated_search (Except.error e) =
      Except.ok (LLMSearchOutcome.errorDict e) ∧
    extract_text_from_pdf (Except.error e) = "" ∧
    generate_questions text (fun _ => Except.error e) = Except.error e ∧
    process_query_call k expected (Except.error e) = Except.error e :=
  ⟨rfl, rfl, rfl, rfl, rfl, rfl, rfl⟩

/-- A success bumps the success counter and leaves the rest alone. -/
theorem uploadCollectStep_success (s : UploadStats) (r : UploadResult)
    (h : r.status = "success") :
    uploadCollectStep s r =
      { s with successful_uploads := s.successful_uploads + 1 } := by
  unfold uploadCollectStep
  rw [if_pos h]

/-- A failure bumps the failure counter and appends the record to `errors`. -/
theorem uploadCollectStep_failed (s : UploadStats) (r : UploadResult)
    (h : ¬r.status = "success") :
    uploadCollectStep s r =
      { s with
          failed_uploads := s.failed_uploads + 1,
          errors := s.errors ++ [r] } := by
  unfold uploadCollectStep
  rw [if_neg h]

/-- The collection loop adds one to `successful_uploads + failed_uploads`
per collected result. -/
theorem uploadFold_counts (results : List UploadResult) :
    ∀ s : UploadStats,
      (results.foldl uploadCollectStep s).successful_uploads +
          (results.foldl uploadCollectStep s).failed_uploads =
        s.successful_uploads + s.failed_uploads + results.length := by
  induction results with
  | nil =>
    intro s
    simp
  | cons r rest ih =>
    intro s
    simp only [List.foldl_cons, List.length_cons]
    by_cases hr : r.status = "success"
    · rw [uploadCollectStep_success s r hr, ih]
      dsimp only
      omega
    · rw [uploadCollectStep_failed s r hr, ih]
      dsimp only
      omega

/-- The collection loop appends one entry to `errors` per failed result. -/
theorem uploadFold_errors (results : List UploadResult) :
    ∀ s : UploadStats,
      (results.foldl uploadCollectStep s).errors.length + s.failed_uploads =
        (results.foldl uploadCollectStep s).failed_uploads +
          s.errors.length := by
  induction results with
  | nil =>
    intro s
    simp only [List.foldl_nil]
    omega
  | cons r rest ih =>
    intro s
    simp only [List.foldl_cons]
    by_cases hr : r.status = "success"
    · rw [uploadCollectStep_success s r hr]
      have h := ih ({ s with
        successful_uploads := s.successful_uploads + 1 })
      dsimp only at h
      omega
    · rw [uploadCollectStep_failed s r hr]
      have h := ih ({ s with
        failed_uploads := s.failed_uploads + 1,
        errors := s.errors ++ [r] })
      dsimp only at h
      simp only [List.length_append, List.length_cons, List.length_nil] at h
      omega

/-- The collection loop never changes `total_files`. -/
theorem uploadFold_total (results : List UploadResult) :
    ∀ s : UploadStats,
      (results.foldl uploadCollectStep s).total_files = s.total_files := by
  induction results with
  | nil =>
    intro s
    simp
  | cons r rest ih =>
    intro s
    simp only [List.foldl_cons]
    by_cases hr : r.status = "success"
    · rw [uploadCollectStep_success s r hr, ih]
    · rw [uploadCollectStep_failed s r hr, ih]

/-- Combined invariants of the collection loop from its starting stats. -/
theorem collectUploadResults_spec (total : Nat)
    (results : List UploadResult) :
    (collectUploadResults total results).total_files = total ∧
    (collectUploadResults total results).successful_uploads +
        (collectUploadResults total results).failed_uploads =
      results.length ∧
    (collectUploadResults total results).errors.length =
      (collectUploadResults total results).failed_uploads := by
  unfold collectUploadResults
  refine ⟨uploadFold_total results _, ?_, ?_⟩
  · have h := uploadFold_counts results ⟨total, 0, 0, []⟩
    simpa using h
  · have h := uploadFold_errors results ⟨total, 0, 0, []⟩
    simpa using h

/-- C3: for every directory, the stats returned by
`upload_pdf_files_to_vector_store` satisfy
`successful_uploads + failed_uploads = total_files`, where `total_files`
counts the directory entries whose lowercased name ends in `.pdf`, and every
failed upload contributes exactly one entry to `errors`. -/
theorem C3_upload_stats_sum (dir_pdfs : String) (dir_entries : List String)
    (uploadOutcome : String → Except String Unit) :
    (upload_pdf_files_to_vector_store dir_pdfs dir_entries
          uploadOutcome).successful_uploads +
        (upload_pdf_files_to_vector_store dir_pdfs dir_entries
          uploadOutcome).failed_uploads =
      (upload_pdf_files_to_vector_store dir_pdfs dir_entries
        uploadOutcome).total_files ∧
    (upload_pdf_files_to_vector_store dir_pdfs dir_entries
        uploadOutcome).total_files =
      (dir_entries.filter (fun f => pyEndsWith (pyLower f) ".pdf")).length ∧
    (upload_pdf_files_to_vector_store dir_pdfs dir_entries
        uploadOutcome).errors.length =
      (upload_pdf_files_to_vector_store dir_pdfs dir_entries
        uploadOutcome).failed_uploads := by
  unfold upload_pdf_files_to_vector_store
  refine ⟨?_, ?_, (collectUploadResults_spec _ _).2.2⟩
  · rw [(collectUploadResults_spec _ _).2.1, (collectUploadResults_spec _ _).1]
    simp
  · rw [(collectUploadResults_spec _ _).1]
    simp

/-- C6: a failing upload task is caught inside `upload_single_pdf` and
reported as a per-file failure record; no task failure prevents the
remaining files from being processed, and the returned stats aggregate
exactly one result per submitted file (`successful + failed` equals the
number of submitted PDF files, whatever mixture of per-file outcomes the
oracle produces). -/
theorem C6_per_task_failures_isolated (dir_pdfs : String)
    (dir_entries : List String)
    (uploadOutcome : String → Except String Unit) (file_path e : String) :
    upload_single_pdf file_path (Except.error e) =
      ⟨basename file_path, "failed", some e⟩ ∧
    (upload_pdf_files_to_vector_store dir_pdfs dir_entries
          uploadOutcome).successful_uploads +
        (upload_pdf_files_to_vector_store dir_pdfs dir_entries
          uploadOutcome).failed_uploads =
      (dir_entries.filter (fun f => pyEndsWith (pyLower f) ".pdf")).length ∧
    (upload_pdf_files_to_vector_store dir_pdfs dir_entries
        uploadOutcome).errors.length =
      (upload_pdf_files_to_vector_store dir_pdfs dir_entries
        uploadOutcome).failed_uploads := by
  refine ⟨rfl, ?_, ?_⟩
  · unfold upload_pdf_files_to_vector_store
    rw [(collectUploadResults_spec _ _).2.1]
    simp
  · unfold upload_pdf_files_to_vector_store
    exact (collectUploadResults_spec _ _).2.2

/-- C7 counterexample: the claim says row `i` always carries the `x, y, z`
coordinates of `reduced_embeddings[i]`.  The metadata loop runs after the
coordinate columns are built and writes metadata values into EXISTING
columns (`if key not in df.columns` only guards column creation), so a
document whose metadata dict contains the key `x` overwrites its `x`
coordinate: with `reduced_embeddings[0] = (1, 2, 3)` and metadata
`x ↦ "boom"`, cell `(0, x)` holds the string `"boom"`, not the coordinate
`1`. -/
theorem C7_counterexample :
    ((create_visualization_data
          [⟨"id0", "a.pdf", [1], [("x", Cell.str "boom")], "t"⟩]
          [(1, 2, 3)] [0]).bind
        (fun df => df.getCell "x" 0)) = some (Cell.str "boom") ∧
    some (Cell.str "boom") ≠ some (Cell.num 1) := by
  constructor
  · decide
  · decide

/-- Updating one named column leaves every other column's lookup
unchanged. -/
theorem findColumn_mapUpdate_other (g : List Cell → List Cell)
    (cols : List (String × List Cell)) (name other : String)
    (h : other ≠ name) :
    findColumn other
        (cols.map (fun c => if c.1 = name then (c.1, g c.2) else c)) =
      findColumn other cols := by
  induction cols with
  | nil => rfl
  | cons c t ih =>
    by_cases hc : c.1 = name
    · have hco : ¬c.1 = other := by
        rw [hc]
        exact fun hh => h hh.symm
      simp [findColumn, hc, hco, h.symm, ih]
    · by_cases hco : c.1 = other
      · simp [findColumn, hc, hco, h]
      · simp [findColumn, hc, hco, h, ih]

/-- Updating one named column rewrites exactly that column's lookup. -/
theorem findColumn_mapUpdate_self (g : List Cell → List Cell)
    (cols : List (String × List Cell)) (name : String) :
    findColumn name
        (cols.map (fun c => if c.1 = name then (c.1, g c.2) else c)) =
      (findColumn name cols).map g := by
  induction cols with
  | nil => rfl
  | cons c t ih =>
    by_cases hc : c.1 = name
    · simp [findColumn, hc]
    · simp [findColumn, hc, ih]

/-- Appending a fresh column (absent so far) makes it findable. -/
theorem findColumn_append_self_of_not_hasCol
    (cols : List (String × List Cell)) (name : String) (vals : List Cell)
    (h : cols.any (fun c => c.1 = name) = false) :
    findColumn name (cols ++ [(name, vals)]) = some vals := by
  induction cols with
  | nil => simp [findColumn]
  | cons c t ih =>
    simp only [List.any_cons, Bool.or_eq_false_iff,
      decide_eq_false_iff_not] at h
    simp only [List.cons_append, findColumn, if_neg h.1]
    exact ih h.2

/-- Appending a column does not change any other column's lookup. -/
theorem findColumn_append_other (cols : List (String × List Cell))
    (name : String) (vals : List Cell) (other : String) (h : other ≠ name) :
    findColumn other (cols ++ [(name, vals)]) = findColumn other cols := by
  induction cols with
  | nil => simp [findColumn, h.symm]
  | cons c t ih =>
    by_cases hco : c.1 = other
    · simp [findColumn, hco]
    · simp [findColumn, hco, ih]

/-- A column reported by `hasCol` is found by `findColumn`. -/
theorem findColumn_isSome_of_hasCol (cols : List (String × List Cell))
    (name : String) (h : cols.any (fun c => c.1 = name) = true) :
    (findColumn name cols).isSome = true := by
  induction cols with
  | nil => simp at h
  | cons c t ih =>
    by_cases hc : c.1 = name
    · simp [findColumn, hc]
    · simp only [List.any_cons, Bool.or_eq_true, decide_eq_true_eq] at h
      rcases h with h | h
      · exact absurd h hc
      · simp only [findColumn, if_neg hc]
        exact ih h

/-- `setColumn` with a length-matching list succeeds, installs exactly that
column, leaves the others alone, and preserves the row count. -/
theorem setColumn_spec (df : DataFrame) (name : String) (vals : List Cell)
    (h : vals.length = df.nrows) :
    ∃ df', df.setColumn name vals = some df' ∧
      findColumn name df'.cols = some vals ∧
      (∀ other, other ≠ name →
        findColumn other df'.cols = findColumn other df.cols) ∧
      df'.nrows = df.nrows := by
  unfold DataFrame.setColumn
  rw [if_pos h]
  by_cases hc : df.hasCol name
  · rw [if_pos hc]
    refine ⟨_, rfl, ?_, ?_, ?_⟩
    · have hself := findColumn_mapUpdate_self (fun _ => vals) df.cols name
      obtain ⟨w, hw⟩ := Option.isSome_iff_exists.mp
        (findColumn_isSome_of_hasCol df.cols name hc)
      rw [hself, hw]
      rfl
    · intro other ho
      exact findColumn_mapUpdate_other (fun _ => vals) df.cols name other ho
    · cases hcols : df.cols with
      | nil => simp [DataFrame.nrows, hcols]
      | cons c t =>
        have hn : df.nrows = c.2.length := by
          simp [DataFrame.nrows, hcols]
        by_cases hc1 : c.1 = name
        · simp [DataFrame.nrows, hcols, hc1, hn, h]
        · simp [DataFrame.nrows, hcols, hc1]
  · rw [if_neg hc]
    refine ⟨_, rfl, ?_, ?_, ?_⟩
    · have hfalse : df.cols.any (fun c => c.1 = name) = false := by
        unfold DataFrame.hasCol at hc
        exact Bool.eq_false_iff.mpr hc
      exact findColumn_append_self_of_not_hasCol df.cols name vals hfalse
    · intro other ho
      exact findColumn_append_other df.cols name vals other ho
    · cases hcols : df.cols with
      | nil =>
        have hn : df.nrows = 0 := by simp [DataFrame.nrows, hcols]
        simp [DataFrame.nrows, hcols, hn, show vals.length = 0 from hn ▸ h]
      | cons c t =>
        simp [DataFrame.nrows, hcols]

/-- Broadcasting a scalar into one column leaves other columns' lookup
unchanged. -/
theorem setColumnScalar_other (df : DataFrame) (name : String) (v : Cell)
    (other : String) (h : other ≠ name) :
    findColumn other (df.setColumnScalar name v).cols =
      findColumn other df.cols := by
  unfold DataFrame.setColumnScalar
  by_cases hc : df.hasCol name
  · rw [if_pos hc]
    exact findColumn_mapUpdate_other (fun l => List.replicate l.length v)
      df.cols name other h
  · rw [if_neg hc]
    exact findColumn_append_other df.cols name _ other h

/-- Broadcasting a scalar preserves the row count. -/
theorem setColumnScalar_nrows (df : DataFrame) (name : String) (v : Cell) :
    (df.setColumnScalar name v).nrows = df.nrows := by
  unfold DataFrame.setColumnScalar
  by_cases hc : df.hasCol name
  · rw [if_pos hc]
    cases hcols : df.cols with
    | nil => simp [DataFrame.nrows, hcols]
    | cons c t =>
      by_cases hc1 : c.1 = name <;>
        simp [DataFrame.nrows, hcols, hc1]
  · rw [if_neg hc]
    cases hcols : df.cols with
    | nil => simp [DataFrame.nrows, hcols]
    | cons c t => simp [DataFrame.nrows, hcols]

/-- Writing one cell leaves other columns' lookup unchanged. -/
theorem setAt_other (df : DataFrame) (i : Nat) (name : String) (v : Cell)
    (other : String) (h : other ≠ name) :
    findColumn other (df.setAt i name v).cols = findColumn other df.cols :=
  findColumn_mapUpdate_other (fun l => l.set i v) df.cols name other h

/-- Writing one cell preserves the row count. -/
theorem setAt_nrows (df : DataFrame) (i : Nat) (name : String) (v : Cell) :
    (df.setAt i name v).nrows = df.nrows := by
  unfold DataFrame.setAt
  cases hcols : df.cols with
  | nil => simp [DataFrame.nrows, hcols]
  | cons c t =>
    by_cases hc1 : c.1 = name <;>
      simp [DataFrame.nrows, hcols, hc1]

/-- One metadata write of the loop leaves other columns' lookup
unchanged. -/
theorem metadataWriteCell_other (i : Nat) (df : DataFrame)
    (kv : String × Cell) (other : String) (h : other ≠ kv.1) :
    findColumn other (metadataWriteCell i df kv).cols =
      findColumn other df.cols := by
  unfold metadataWriteCell
  by_cases hc : df.hasCol kv.1
  · rw [if_pos hc, setAt_other _ _ _ _ _ h]
  · rw [if_neg hc, setAt_other _ _ _ _ _ h,
      setColumnScalar_other _ _ _ _ h]

/-- One metadata write of the loop preserves the row count. -/
theorem metadataWriteCell_nrows (i : Nat) (df : DataFrame)
    (kv : String × Cell) :
    (metadataWriteCell i df kv).nrows = df.nrows := by
  unfold metadataWriteCell
  by_cases hc : df.hasCol kv.1
  · rw [if_pos hc, setAt_nrows]
  · rw [if_neg hc, setAt_nrows, setColumnScalar_nrows]

/-- One document's metadata writes leave columns with other names
unchanged. -/
theorem metaFold_other (meta : List (String × Cell)) (i : Nat)
    (name : String) (h : ∀ kv ∈ meta, kv.1 ≠ name) :
    ∀ df : DataFrame,
      findColumn name (meta.foldl (metadataWriteCell i) df).cols =
        findColumn name df.cols := by
  induction meta with
  | nil =>
    intro df
    rfl
  | cons kv t ih =>
    intro df
    simp only [List.foldl_cons]
    rw [ih (fun kv₂ hkv₂ => h kv₂ (by simp [hkv₂])),
      metadataWriteCell_other i df kv name (Ne.symm (h kv (by simp)))]

/-- One document's metadata writes preserve the row count. -/
theorem metaFold_nrows (meta : List (String × Cell)) (i : Nat) :
    ∀ df : DataFrame,
      (meta.foldl (metadataWriteCell i) df).nrows = df.nrows := by
  induction meta with
  | nil =>
    intro df
    rfl
  | cons kv t ih =>
    intro df
    simp only [List.foldl_cons]
    rw [ih, metadataWriteCell_nrows]

/-- The whole metadata loop over enumerated documents leaves columns whose
name never occurs among the metadata keys unchanged. -/
theorem enumFold_other (pairs : List (Nat × EmbeddingEntry)) (name : String)
    (h : ∀ p ∈ pairs, ∀ kv ∈ p.2.metadata, kv.1 ≠ name) :
    ∀ df : DataFrame,
      findColumn name
          (pairs.foldl
            (fun df p => p.2.metadata.foldl (metadataWriteCell p.1) df)
            df).cols =
        findColumn name df.cols := by
  induction pairs with
  | nil =>
    intro df
    rfl
  | cons p t ih =>
    intro df
    simp only [List.foldl_cons]
    rw [ih (fun q hq => h q (by simp [hq])),
      metaFold_other p.2.metadata p.1 name (h p (by simp)) df]

/-- The whole metadata loop preserves the row count. -/
theorem enumFold_nrows (pairs : List (Nat × EmbeddingEntry)) :
    ∀ df : DataFrame,
      (pairs.foldl
          (fun df p => p.2.metadata.foldl (metadataWriteCell p.1) df)
          df).nrows = df.nrows := by
  induction pairs with
  | nil =>
    intro df
    rfl
  | cons p t ih =>
    intro df
    simp only [List.foldl_cons]
    rw [ih, metaFold_nrows]

/-- `addMetadataColumns` leaves any column whose name occurs in no
document's metadata unchanged. -/
theorem addMetadataColumns_other (df : DataFrame)
    (E : List EmbeddingEntry) (name : String)
    (h : ∀ d ∈ E, ∀ kv ∈ d.metadata, kv.1 ≠ name) :
    findColumn name (addMetadataColumns df E).cols =
      findColumn name df.cols := by
  unfold addMetadataColumns
  exact enumFold_other E.enum name
    (fun p hp =>
      h p.2 (List.getElem?_mem (List.mem_enum_iff_getElem?.mp hp))) df

/-- `addMetadataColumns` preserves the row count. -/
theorem addMetadataColumns_nrows (df : DataFrame)
    (E : List EmbeddingEntry) :
    (addMetadataColumns df E).nrows = df.nrows := by
  unfold addMetadataColumns
  exact enumFold_nrows E.enum df

/-- Reading a mapped list at an in-range index. -/
theorem get?_map_getD {α β : Type} (l : List α) (f : α → β) (i : Nat)
    (d : α) (h : i < l.length) :
    (l.map f).get? i = some (f (l.getD i d)) := by
  rw [List.get?_eq_getElem?, List.getElem?_map, List.getElem?_eq_getElem h,
    List.getD_eq_getElem l d h]
  rfl

/-- C7 amended: for equal-length inputs whose metadata dicts use no key
named `x`, `y`, `z`, `id` or `filename`, `create_visualization_data` returns
a table with exactly one row per document, and row `i` carries the `x, y, z`
coordinates of `reduced_embeddings[i]`, the id and filename of
`embeddings_data[i]`, cluster label `cluster_labels[i]`, and the text
preview derived from `embeddings_data[i]`'s text.  (Without the metadata-key
proviso the metadata loop can overwrite those columns, see the
counterexample.) -/
theorem C7_amended_one_row_per_document (E : List EmbeddingEntry)
    (R : List (ℚ × ℚ × ℚ)) (C : List ℤ) (n : Nat)
    (hE : E.length = n) (hR : R.length = n) (hC : C.length = n)
    (hmeta : ∀ d ∈ E, ∀ kv ∈ d.metadata,
      kv.1 ∉ (["x", "y", "z", "id", "filename"] : List String)) :
    ∃ df, create_visualization_data E R C = some df ∧
      df.nrows = n ∧
      ∀ i, i < n →
        df.getCell "x" i = some (Cell.num (R.getD i (0, 0, 0)).1) ∧
        df.getCell "y" i = some (Cell.num (R.getD i (0, 0, 0)).2.1) ∧
        df.getCell "z" i = some (Cell.num (R.getD i (0, 0, 0)).2.2) ∧
        df.getCell "id" i =
          some (Cell.str (E.getD i ⟨"", "", [], [], ""⟩).id) ∧
        df.getCell "filename" i =
          some (Cell.str (E.getD i ⟨"", "", [], [], ""⟩).filename) ∧
        df.getCell "cluster" i = some (Cell.int (C.getD i 0)) ∧
        df.getCell "text_preview" i =
          some (Cell.str (textPreview (E.getD i ⟨"", "", [], [], ""⟩).text))
    := by
  have hm : ∀ s ∈ (["x", "y", "z", "id", "filename"] : List String),
      ∀ d ∈ E, ∀ kv ∈ d.metadata, kv.1 ≠ s := by
    intro s hs d hd kv hkv h'
    exact hmeta d hd kv hkv (h' ▸ hs)
  have hn0 : (⟨[("x", R.map (fun r => Cell.num r.1)),
      ("y", R.map (fun r => Cell.num r.2.1)),
      ("z", R.map (fun r => Cell.num r.2.2))]⟩ : DataFrame).nrows = n := by
    simp [DataFrame.nrows, hR]
  obtain ⟨df1, h1, h1self, h1other, h1rows⟩ :=
    setColumn_spec
      ⟨[("x", R.map (fun r => Cell.num r.1)),
        ("y", R.map (fun r => Cell.num r.2.1)),
        ("z", R.map (fun r => Cell.num r.2.2))]⟩
      "id" (E.map (fun d => Cell.str d.id)) (by simp [hE, hn0])
  obtain ⟨df2, h2, h2self, h2other, h2rows⟩ :=
    setColumn_spec df1 "filename" (E.map (fun d => Cell.str d.filename))
      (by simp [hE, h1rows, hn0])
  have h3rows : (addMetadataColumns df2 E).nrows = df2.nrows :=
    addMetadataColumns_nrows df2 E
  obtain ⟨df4, h4, h4self, h4other, h4rows⟩ :=
    setColumn_spec (addMetadataColumns df2 E) "cluster" (C.map Cell.int)
      (by simp [hC, h3rows, h2rows, h1rows, hn0])
  obtain ⟨df5, h5, h5self, h5other, h5rows⟩ :=
    setColumn_spec df4 "text_preview"
      (E.map (fun d => Cell.str (textPreview d.text)))
      (by simp [hE, h4rows, h3rows, h2rows, h1rows, hn0])
  refine ⟨df5, ?_, ?_, ?_⟩
  · unfold create_visualization_data
    dsimp only
    rw [h1]
    simp only [Option.some_bind]
    rw [h2]
    simp only [Option.some_bind]
    rw [h4]
    simp only [Option.some_bind]
    exact h5
  · rw [h5rows, h4rows, h3rows, h2rows, h1rows, hn0]
  · intro i hi
    have hiR : i < R.length := by omega
    have hiE : i < E.length := by omega
    have hiC : i < C.length := by omega
    have hx : findColumn "x" df5.cols =
        some (R.map (fun r => Cell.num r.1)) := by
      rw [h5other "x" (by decide), h4other "x" (by decide),
        addMetadataColumns_other df2 E "x" (hm "x" (by decide)),
        h2other "x" (by decide), h1other "x" (by decide)]
      simp [findColumn]
    have hy : findColumn "y" df5.cols =
        some (R.map (fun r => Cell.num r.2.1)) := by
      rw [h5other "y" (by decide), h4other "y" (by decide),
        addMetadataColumns_other df2 E "y" (hm "y" (by decide)),
        h2other "y" (by decide), h1other "y" (by decide)]
      simp [findColumn]
    have hz : findColumn "z" df5.cols =
        some (R.map (fun r => Cell.num r.2.2)) := by
      rw [h5other "z" (by decide), h4other "z" (by decide),
        addMetadataColumns_other df2 E "z" (hm "z" (by decide)),
        h2other "z" (by decide), h1other "z" (by decide)]
      simp [findColumn]
    have hid : findColumn "id" df5.cols =
        some (E.map (fun d => Cell.str d.id)) := by
      rw [h5other "id" (by decide), h4other "id" (by decide),
        addMetadataColumns_other df2 E "id" (hm "id" (by decide)),
        h2other "id" (by decide)]
      exact h1self
    have hfn : findColumn "filename" df5.cols =
        some (E.map (fun d => Cell.str d.filename)) := by
      rw [h5other "filename" (by decide), h4other "filename" (by decide),
        addMetadataColumns_other df2 E "filename"
          (hm "filename" (by decide))]
      exact h2self
    have hcl : findColumn "cluster" df5.cols = some (C.map Cell.int) := by
      rw [h5other "cluster" (by decide)]
      exact h4self
    refine ⟨?_, ?_, ?_, ?_, ?_, ?_, ?_⟩
    · unfold DataFrame.getCell
      rw [hx, Option.some_bind]
      exact get?_map_getD R _ i (0, 0, 0) hiR
    · unfold DataFrame.getCell
      rw [hy, Option.some_bind]
      exact get?_map_getD R _ i (0, 0, 0) hiR
    · unfold DataFrame.getCell
      rw [hz, Option.some_bind]
      exact get?_map_getD R _ i (0, 0, 0) hiR
    · unfold DataFrame.getCell
      rw [hid, Option.some_bind]
      exact get?_map_getD E _ i ⟨"", "", [], [], ""⟩ hiE
    · unfold DataFrame.getCell
      rw [hfn, Option.some_bind]
      exact get?_map_getD E _ i ⟨"", "", [], [], ""⟩ hiE
    · unfold DataFrame.getCell
      rw [hcl, Option.some_bind]
      exact get?_map_getD C _ i 0 hiC
    · unfold DataFrame.getCell
      rw [h5self, Option.some_bind]
      exact get?_map_getD E _ i ⟨"", "", [], [], ""⟩ hiE

/-- Closed instantiation of `C7_amended_one_row_per_document` at a two
document input with one harmless metadata key. -/
theorem C7_amended_one_row_per_document_witness :
    ∃ df, create_visualization_data
        [⟨"id0", "a.pdf", [1, 2], [("source", Cell.str "s")], "hello"⟩,
         ⟨"id1", "b.pdf", [3, 4], [], ""⟩]
        [(1, 2, 3), (4, 5, 6)] [0, -1] = some df ∧
      df.nrows = 2 ∧
      ∀ i, i < 2 →
        df.getCell "x" i =
          some (Cell.num (([(1, 2, 3), (4, 5, 6)] :
            List (ℚ × ℚ × ℚ)).getD i (0, 0, 0)).1) ∧
        df.getCell "y" i =
          some (Cell.num (([(1, 2, 3), (4, 5, 6)] :
            List (ℚ × ℚ × ℚ)).getD i (0, 0, 0)).2.1) ∧
        df.getCell "z" i =
          some (Cell.num (([(1, 2, 3), (4, 5, 6)] :
            List (ℚ × ℚ × ℚ)).getD i (0, 0, 0)).2.2) ∧
        df.getCell "id" i =
          some (Cell.str (([⟨"id0", "a.pdf", [1, 2],
            [("source", Cell.str "s")], "hello"⟩,
            ⟨"id1", "b.pdf", [3, 4], [], ""⟩] :
            List EmbeddingEntry).getD i ⟨"", "", [], [], ""⟩).id) ∧
        df.getCell "filename" i =
          some (Cell.str (([⟨"id0", "a.pdf", [1, 2],
            [("source", Cell.str "s")], "hello"⟩,
            ⟨"id1", "b.pdf", [3, 4], [], ""⟩] :
            List EmbeddingEntry).getD i ⟨"", "", [], [], ""⟩).filename) ∧
        df.getCell "cluster" i =
          some (Cell.int (([0, -1] : List ℤ).getD i 0)) ∧
        df.getCell "text_preview" i =
          some (Cell.str (textPreview (([⟨"id0", "a.pdf", [1, 2],
            [("source", Cell.str "s")], "hello"⟩,
            ⟨"id1", "b.pdf", [3, 4], [], ""⟩] :
            List EmbeddingEntry).getD i ⟨"", "", [], [], ""⟩).text)) :=
  C7_amended_one_row_per_document _ _ _ 2 (by decide) (by decide)
    (by decide) (by decide)

/-- C5: the claim says the CLI `search` action checks `vector_search`'s
`None` sentinel and prints a message instead of dereferencing it.  The code
iterates `results.data` with no check: at the failing input (any store id or
query for which the search call raises, so that `vector_search` returns
`None`) the action raises `AttributeError` on the sentinel.  This theorem
evaluates the embedded action body at that input. -/
theorem C5_search_action_dereferences_none_sentinel :
    main_search_action none = Except.error "AttributeError" ∧
    (∀ out, main_search_action none ≠ Except.ok out) :=
  ⟨rfl, fun _ h => Except.noConfusion h⟩
